import Mathlib

/-!
Verification development for the `fs_image` sandboxed execution and
cross-namespace socket-handoff engine (`fs_image/nspawn_in_subvol`).

The Python sources are shallowly embedded as executable Lean definitions:

* `args.py`   — configuration structures and their fail-fast validators
  (`new_nspawn_opts`, `_new_nspawn_cli_args`);
* `cmd.py`    — the command builder (`_nspawn_cmd`,
  `_extra_nspawn_args_and_env`, `nspawn_sanitize_env`);
* `launch_repo_servers.py` — the socket-handoff orchestration
  (`_create_sockets_inside_netns`), the per-server readiness loop
  (`_launch_repo_server`) and the port-file driven launcher
  (`launch_repo_servers_for_netns`).

Python `assert` failures and raised exceptions are modelled by `Except`
errors; the ambient process environment and host filesystem facts the code
consults (`os.environ`, `os.path.exists`, `realpath`, image metadata) are
passed in explicitly so that the dependence of each function on them is
visible in its type.
-/

namespace FsImage

/-! ## Configuration model (`nspawn_in_subvol/args.py`) -/

/-- Mirrors Python truthiness of an `Optional[Path]`:
`None` and the empty path are falsy. -/
def truthyOptStr : Option String → Bool
  | none => false
  | some s => s ≠ ""

/-- `_NspawnDebugOnlyNotForProdOpts` from `args.py` with its field defaults. -/
structure NspawnDebugOnlyNotForProdOpts where
  forward_tls_env : Bool := false
  logs_tmpfs : Bool := true
  snapshot_into : Option String := none
  cap_net_admin : Bool := false
  private_network : Bool := true
  debug : Bool := false
deriving DecidableEq, Repr

/-- `pwd.struct_passwd` — only the fields the embedded code reads. -/
structure StructPasswd where
  pw_name : String
  pw_uid : Nat
  pw_gid : Nat
deriving DecidableEq, Repr

/-- The `nobody` user, the default for `_NspawnOpts.user`. -/
def nobodyUser : StructPasswd := ⟨"nobody", 65534, 65534⟩

/-- `_NspawnOpts` from `args.py` with its field defaults.  `layer` is the
subvolume, identified here by its path. -/
structure NspawnOpts where
  cmd : List String
  layer : String
  bind_repo_ro : Bool := false
  bindmount_ro : List (String × String) := []
  bindmount_rw : List (String × String) := []
  forward_fd : List Nat := []
  hostname : Option String := none
  quiet : Bool := false
  setenv : List String := []
  snapshot : Bool := true
  user : StructPasswd := nobodyUser
  debug_only_opts : NspawnDebugOnlyNotForProdOpts := {}
  allow_mknod : Bool := false
deriving DecidableEq, Repr

/-- The two `assert`s of `new_nspawn_opts`, as distinguishable failures. -/
inductive ConfigError where
  | quietAndDebug
  | snapshotIntoWithoutSnapshot
deriving DecidableEq, Repr

/-- `new_nspawn_opts` (`args.py:189-204`): builds the options struct and
fail-fast validates it. The first `assert` rejects `quiet` together with
`debug_only_opts.debug`; the second rejects a truthy
`debug_only_opts.snapshot_into` without `snapshot`. -/
def new_nspawn_opts (opts : NspawnOpts) : Except ConfigError NspawnOpts :=
  if opts.quiet && opts.debug_only_opts.debug then
    .error .quietAndDebug
  else if truthyOptStr opts.debug_only_opts.snapshot_into && !opts.snapshot then
    .error .snapshotIntoWithoutSnapshot
  else
    .ok opts

/-- `_NspawnCLIArgs` from `args.py`. -/
structure NspawnCLIArgs where
  boot : Bool
  append_boot_console : Option String
  opts : NspawnOpts
  serve_rpm_snapshots : List String := []
  snapshot_to_versionlock : List (String × String) := []
deriving DecidableEq, Repr

/-- The `assert` of `_new_nspawn_cli_args`. -/
inductive CLIArgsError where
  | serveRpmSnapshotsNeedsRoot
deriving DecidableEq, Repr

/-- `_new_nspawn_cli_args` (`args.py:343-350`): rejects a non-empty
`serve_rpm_snapshots` unless the configured user is `root`. -/
def new_nspawn_cli_args (args : NspawnCLIArgs) :
    Except CLIArgsError NspawnCLIArgs :=
  if !args.serve_rpm_snapshots.isEmpty && args.opts.user.pw_name ≠ "root" then
    .error .serveRpmSnapshotsNeedsRoot
  else
    .ok args

/-! ## Command builder (`nspawn_in_subvol/cmd.py`) -/

/-- Python's `str.startswith`: character-wise prefix test. -/
def pyStartsWith (s p : String) : Bool :=
  p.toList.isPrefixOf s.toList

/-- `_colon_quote_path` (`cmd.py:32-33`): escape every backslash and colon
with a preceding backslash, since the mount syntax is colon-delimited. -/
def colon_quote_path (p : String) : String :=
  String.mk (p.toList.foldr
    (fun c acc => if c = ':' ∨ c = '\\' then '\\' :: c :: acc else c :: acc)
    [])

/-- `bind_args` (`cmd.py:41-53`): the flag pair for one bind mount. -/
def bind_args (src dest : String) (readonly : Bool) : List String :=
  [if readonly then "--bind-ro" else "--bind",
   colon_quote_path src ++ ":" ++ colon_quote_path dest]

/-- Host-side facts the command builder reads from outside its
configuration argument: the ambient process environment, whether
`/dev/fuse` exists, the resolved repo root, the layer's
`artifacts_may_require_repo` metadata, whether the image carries an
`os-release` marker, and the path of the snapshot subvolume handed to
`_nspawn_cmd`. -/
structure HostState where
  ambientEnv : List (String × String)
  devFuseExists : Bool
  repoRootRealpath : String
  artifactsMayRequireRepo : Bool
  osReleaseExists : Bool
  nspawnSubvolPath : String
deriving DecidableEq, Repr

/-- `_inject_os_release_args` (`cmd.py:56-69`): when neither canonical
os-release path exists in the image, bind `/dev/null` over the first one. -/
def inject_os_release_args (osReleaseExists : Bool) : List String :=
  if osReleaseExists then [] else bind_args "/dev/null" "/usr/lib/os-release" true

/-- `_nspawn_cmd` (`cmd.py:72-101`) with the `uuid.uuid4().hex` machine
token passed in explicitly as `machineId`. -/
def nspawn_cmd (machineId : String) (host : HostState) : List String :=
  ["env", "UNIFIED_CGROUP_HIERARCHY=yes",
   "systemd-nspawn",
   "--register=no", "--keep-unit",
   "--machine", machineId,
   "--directory", host.nspawnSubvolPath]
  ++ inject_os_release_args host.osReleaseExists
  ++ ["--link-journal=no", "--settings=no", "--timezone=off"]

/-- The `cmd_env` assembly at the end of `_extra_nspawn_args_and_env`
(`cmd.py:180-189`): start from `[]`, and when `forward_tls_env` is set,
`insert(0, ...)` each ambient `THRIFT_TLS_`-prefixed variable as `K=V`;
then `extend` with `opts.setenv`. -/
def buildCmdEnv (forward_tls_env : Bool) (ambient : List (String × String))
    (setenv : List String) : List String :=
  (if forward_tls_env then
    ambient.foldl
      (fun acc kv =>
        if pyStartsWith kv.1 "THRIFT_TLS_" then (kv.1 ++ "=" ++ kv.2) :: acc
        else acc)
      []
  else []) ++ setenv

/-- The forwarded `THRIFT_TLS_` entries of `buildCmdEnv`, in the order
they end up at the front of `cmd_env` (repeated `insert(0, ...)` reverses
the ambient iteration order). -/
def forwardedTlsEnv (ambient : List (String × String)) : List String :=
  ((ambient.filter (fun kv => pyStartsWith kv.1 "THRIFT_TLS_")).map
    (fun kv => kv.1 ++ "=" ++ kv.2)).reverse

/-- `_extra_nspawn_args_and_env` (`cmd.py:111-191`): the extra
`systemd-nspawn` arguments and the `K=V` environment for `opts.cmd`,
assembled in the source's fixed order. -/
def extra_nspawn_args_and_env (opts : NspawnOpts) (host : HostState) :
    List String × List String :=
  let args :=
    (if opts.quiet then ["--quiet"] else [])
    ++ (if opts.debug_only_opts.private_network then ["--private-network"] else [])
    ++ opts.bindmount_rw.foldl (fun acc sd => acc ++ bind_args sd.1 sd.2 false) []
    ++ opts.bindmount_ro.foldl (fun acc sd => acc ++ bind_args sd.1 sd.2 true) []
    ++ (if opts.bind_repo_ro || host.artifactsMayRequireRepo then
          bind_args host.repoRootRealpath host.repoRootRealpath true
        else [])
    ++ (if opts.debug_only_opts.logs_tmpfs then
          ["--tmpfs=/logs:" ++ "uid=" ++ toString opts.user.pw_uid
            ++ ",gid=" ++ toString opts.user.pw_gid
            ++ ",mode=0755,nodev,nosuid,noexec"]
        else [])
    ++ (if host.devFuseExists then ["--bind-ro=/dev/fuse"] else [])
    ++ (if opts.debug_only_opts.cap_net_admin then ["--capability=CAP_NET_ADMIN"] else [])
    ++ (if truthyOptStr opts.hostname then
          ["--hostname=" ++ opts.hostname.getD ""]
        else [])
    ++ (if !opts.allow_mknod then ["--drop-capability=CAP_MKNOD"] else [])
  (args, buildCmdEnv opts.debug_only_opts.forward_tls_env host.ambientEnv opts.setenv)

/-- The command builder's whole output as consumed by `_nspawn_setup`
(`cmd.py:259-277`): the full `systemd-nspawn` argument vector
(`_nspawn_cmd` followed by the extra args) and the target command's
environment. -/
def build_invocation (opts : NspawnOpts) (machineId : String)
    (host : HostState) : List String × List String :=
  let (extraArgs, cmdEnv) := extra_nspawn_args_and_env opts host
  (nspawn_cmd machineId host ++ extraArgs, cmdEnv)

/-- `nspawn_sanitize_env` (`cmd.py:215-231`): copy the ambient environment
and pop every variable whose name starts with `SYSTEMD_NSPAWN_`. -/
def nspawn_sanitize_env (env : List (String × String)) : List (String × String) :=
  env.filter (fun kv => !pyStartsWith kv.1 "SYSTEMD_NSPAWN_")

/-! ## Socket handoff and repo-server supervision
(`nspawn_in_subvol/launch_repo_servers.py`) -/

/-- Failures of `_create_sockets_inside_netns`: the `assert` on the
received descriptor count, and `check_popen_returncode` on the
`nsenter` helper's exit status. -/
inductive HandoffError where
  | countMismatch (received : Nat)
  | helperFailed (returncode : Int)
deriving DecidableEq, Repr

/-- `_create_sockets_inside_netns` (`launch_repo_servers.py:67-92`).
`receivedFds` is whatever list of descriptors
`recv_fds_from_unix_sock` delivered over the rendezvous channel, and
`helperReturncode` the `nsenter` helper's exit status.  The code wraps
each descriptor in a socket object, `assert`s that exactly `num_socks`
arrived, then runs `check_popen_returncode`, which raises on a non-zero
status; only then are the sockets returned. -/
def create_sockets_inside_netns (num_socks : Nat) (receivedFds : List Nat)
    (helperReturncode : Int) : Except HandoffError (List Nat) :=
  let repo_server_socks := receivedFds
  if repo_server_socks.length ≠ num_socks then
    .error (.countMismatch repo_server_socks.length)
  else if helperReturncode ≠ 0 then
    .error (.helperFailed helperReturncode)
  else
    .ok repo_server_socks

/-- One iteration's observations in `_launch_repo_server`'s readiness loop:
`server_proc.poll()` (`none` while the server is still running, `some code`
once it has exited) and `sock.getsockopt(SOL_SOCKET, SO_ACCEPTCONN)`. -/
structure ReadinessObs where
  poll : Option Int
  acceptconn : Bool
deriving DecidableEq, Repr

/-- How `_launch_repo_server`'s readiness loop resolved, with the number of
`time.sleep(0.1)` poll intervals it consumed before resolving. -/
inductive WaitResult where
  | listening (sleeps : Nat)
  | procExited (sleeps : Nat) (code : Int)
deriving DecidableEq, Repr

/-- Add one consumed poll interval to a resolution. -/
def WaitResult.bump : WaitResult → WaitResult
  | .listening s => .listening (s + 1)
  | .procExited s c => .procExited (s + 1) c

/-- The `while server_proc.poll() is None` loop of `_launch_repo_server`
(`launch_repo_servers.py:118-121`), driven by a finite trace of
observations: each iteration first checks `poll` (a non-`None` result ends
the loop), then `SO_ACCEPTCONN` (`break` on success), else sleeps one poll
interval and repeats.  `none` means the trace ended with the loop still
spinning. -/
def waitForServer : List ReadinessObs → Option WaitResult
  | [] => none
  | obs :: rest =>
    match obs.poll with
    | some code => some (.procExited 0 code)
    | none =>
      if obs.acceptconn then some (.listening 0)
      else (waitForServer rest).map WaitResult.bump

/-- What `_launch_repo_server` does once its readiness loop resolves. -/
inductive LaunchOutcome where
  | proceeded (r : WaitResult)
  | startupError (r : WaitResult)
deriving DecidableEq, Repr

/-- The setup phase of `_launch_repo_server` (`launch_repo_servers.py:95-124`)
after the server subprocess was spawned: run the readiness loop,
then `yield` to the caller.  The source has no conditional after the loop —
whichever way the loop resolved, control proceeds to `yield` (and the
server is `kill`ed only on scope exit); no exception is raised. -/
def launch_repo_server_setup (trace : List ReadinessObs) :
    Option LaunchOutcome :=
  (waitForServer trace).map .proceeded

/-- Helper for Python's `str.split()`: walk the characters, accumulating
the current (reversed) token; whitespace flushes a non-empty token. -/
def pySplitWsAux : List Char → List Char → List String
  | [], [] => []
  | [], cur => [String.mk cur.reverse]
  | c :: cs, cur =>
    if c.isWhitespace then
      match cur with
      | [] => pySplitWsAux cs []
      | _ :: _ => String.mk cur.reverse :: pySplitWsAux cs []
    else pySplitWsAux cs (c :: cur)

/-- Python's no-argument `str.split()`: the maximal runs of non-whitespace
characters; never produces empty tokens. -/
def pySplitWhitespace (s : String) : List String :=
  pySplitWsAux s.toList []

/-- Decimal digit accumulator for `pyInt?`. -/
def digitsToNatAux : List Char → Nat → Option Nat
  | [], acc => some acc
  | c :: cs, acc =>
    if c.isDigit then digitsToNatAux cs (acc * 10 + (c.toNat - '0'.toNat))
    else none

/-- Parse a non-empty all-digit character run. -/
def digitsToNat : List Char → Option Nat
  | [] => none
  | cs => digitsToNatAux cs 0

/-- Python's `int(v)` on a stripped token: an optional sign followed by
decimal digits; anything else raises `ValueError`, modelled as `none`. -/
def pyInt? (s : String) : Option Int :=
  match s.toList with
  | '-' :: cs => (digitsToNat cs).map (fun n => -(n : Int))
  | '+' :: cs => (digitsToNat cs).map (fun n => (n : Int))
  | cs => (digitsToNat cs).map (fun n => (n : Int))

/-- `int(v)` on a whitespace token of the `repo_server_ports` file. -/
def parsePortToken (s : String) : Option Int := pyInt? s

/-- The port-file parse in `launch_repo_servers_for_netns`
(`launch_repo_servers.py:137-138`): split the contents on whitespace, drop
empty tokens, `int(...)` each token, and collect the results into a set
(duplicates collapse).  The set is modelled as the deduplicated list;
`none` when some token is not an integer (Python would raise
`ValueError`). -/
def parseRepoServerPorts (contents : String) : Option (List Int) :=
  ((((pySplitWhitespace contents).filter (fun v => v ≠ "")).mapM
    parsePortToken).map List.dedup)

/-- One repo server started by `launch_repo_servers_for_netns`: the index
of the handed-off socket it owns, the address the socket was bound to, and
the port. -/
structure ServerBinding where
  sockIndex : Nat
  host : String
  port : Int
deriving DecidableEq, Repr

/-- The launch plan of `launch_repo_servers_for_netns`
(`launch_repo_servers.py:127-152`): parse the port file into a set, request
`len(repo_server_ports)` sockets from `_create_sockets_inside_netns`, and
`zip` the sockets with the ports, binding each socket to its port on
`127.0.0.1` and starting one `_launch_repo_server` per pair.  Returns the
number of sockets requested and the resulting bindings. -/
def launch_repo_servers_plan (contents : String) :
    Option (Nat × List ServerBinding) :=
  (parseRepoServerPorts contents).map fun repo_server_ports =>
    (repo_server_ports.length,
     ((List.range repo_server_ports.length).zip repo_server_ports).map
       fun ip => ⟨ip.1, "127.0.0.1", ip.2⟩)

/-! ## Example configurations used as concrete inputs -/

/-- A minimal valid configuration. -/
def exOpts : NspawnOpts := { cmd := ["true"], layer := "layer" }

/-- `exOpts` with both `quiet` and verbose `debug` requested. -/
def exOptsQuietDebug : NspawnOpts :=
  { exOpts with quiet := true, debug_only_opts := { debug := true } }

/-- `exOpts` with `quiet` only. -/
def exOptsQuietOnly : NspawnOpts := { exOpts with quiet := true }

/-- `exOpts` with a persisted-snapshot destination but snapshot mode off. -/
def exOptsSnapIntoNoSnap : NspawnOpts :=
  { exOpts with snapshot := false,
                debug_only_opts := { snapshot_into := some "/s" } }

/-- `exOpts` with a persisted-snapshot destination and snapshot mode on. -/
def exOptsSnapIntoSnap : NspawnOpts :=
  { exOpts with snapshot := true,
                debug_only_opts := { snapshot_into := some "/s" } }

/-- CLI args serving one RPM snapshot as the default `nobody` user. -/
def exCliServeAsNobody : NspawnCLIArgs :=
  { boot := false, append_boot_console := none, opts := exOpts,
    serve_rpm_snapshots := ["/snap"] }

/-- CLI args serving no RPM snapshot as the default `nobody` user. -/
def exCliNoServe : NspawnCLIArgs :=
  { boot := false, append_boot_console := none, opts := exOpts }

/-- A host state with `/dev/fuse` present. -/
def exHostFuse : HostState :=
  { ambientEnv := [], devFuseExists := true, repoRootRealpath := "/repo",
    artifactsMayRequireRepo := false, osReleaseExists := true,
    nspawnSubvolPath := "/subvol" }

/-- The same host state except `/dev/fuse` is absent. -/
def exHostNoFuse : HostState := { exHostFuse with devFuseExists := false }

/-! ## Theorems -/

/-- C1: for every batch size `n`, `_create_sockets_inside_netns` either
returns exactly `n` socket descriptors received over the rendezvous
channel, or fails the whole operation with an error; it never returns a
partial result of fewer than `n` descriptors, and a count mismatch is
fatal (an error, not a retry). -/
theorem handoff_all_or_nothing (n : Nat) (fds : List Nat) (rc : Int) :
    ((∃ socks, create_sockets_inside_netns n fds rc = .ok socks ∧
        socks.length = n ∧ socks = fds)
      ∨ (∃ e, create_sockets_inside_netns n fds rc = .error e))
    ∧ (fds.length ≠ n →
        create_sockets_inside_netns n fds rc =
          .error (.countMismatch fds.length)) := by
  unfold create_sockets_inside_netns
  by_cases hlen : fds.length = n
  · by_cases hrc : rc = 0 <;> simp [hlen, hrc]
  · simp [hlen]

/-- C1 witness: requesting 2 sockets when only 1 descriptor arrives is a
fatal count-mismatch error. -/
theorem handoff_all_or_nothing_witness :
    create_sockets_inside_netns 2 [5] 0 = .error (.countMismatch 1) :=
  (handoff_all_or_nothing 2 [5] 0).2 (by decide)

/-- C4: even after all `n` descriptors were received, a non-zero exit
status of the `nsenter` helper makes `_create_sockets_inside_netns` fail
instead of returning the already-received descriptors. -/
theorem handoff_checks_helper_exit (n : Nat) (fds : List Nat) (rc : Int)
    (hlen : fds.length = n) (hrc : rc ≠ 0) :
    create_sockets_inside_netns n fds rc = .error (.helperFailed rc) := by
  unfold create_sockets_inside_netns
  simp [hlen, hrc]

/-- C4 witness: both descriptors arrived, but the helper exited with
status 3, so the handoff fails. -/
theorem handoff_checks_helper_exit_witness :
    create_sockets_inside_netns 2 [5, 6] 3 = .error (.helperFailed 3) :=
  handoff_checks_helper_exit 2 [5, 6] 3 (by decide) (by decide)

/-- C5: `new_nspawn_opts` with both `quiet` and `debug_only_opts.debug`
set always fails its validation (a pure check, no process is spawned);
with at most one of the two set, that particular check never fires. -/
theorem new_nspawn_opts_quiet_debug (opts : NspawnOpts) :
    (opts.quiet = true → opts.debug_only_opts.debug = true →
      new_nspawn_opts opts = .error .quietAndDebug)
    ∧ (¬(opts.quiet = true ∧ opts.debug_only_opts.debug = true) →
        new_nspawn_opts opts ≠ .error .quietAndDebug) := by
  unfold new_nspawn_opts
  constructor
  · intro hq hd
    simp [hq, hd]
  · intro h
    rcases Bool.eq_false_or_eq_true opts.quiet with hq | hq <;>
      rcases Bool.eq_false_or_eq_true opts.debug_only_opts.debug with hd | hd <;>
      simp [hq, hd] at h ⊢ <;>
      split <;> simp

/-- C5 witness: a config with `quiet` and `debug` both set is rejected,
and the same config with `debug` cleared passes the quiet/debug check. -/
theorem new_nspawn_opts_quiet_debug_witness :
    new_nspawn_opts exOptsQuietDebug = .error .quietAndDebug
    ∧ new_nspawn_opts exOptsQuietOnly ≠ .error .quietAndDebug :=
  ⟨(new_nspawn_opts_quiet_debug _).1 rfl rfl,
   (new_nspawn_opts_quiet_debug _).2 (by simp [exOptsQuietOnly, exOpts])⟩

/-- C6: `new_nspawn_opts` with a non-empty `snapshot_into` destination and
`snapshot = false` always fails validation; when `snapshot` is enabled or
no destination is given, the snapshot-into check never fires. -/
theorem new_nspawn_opts_snapshot_into (opts : NspawnOpts) :
    (truthyOptStr opts.debug_only_opts.snapshot_into = true →
      opts.snapshot = false → ∃ e, new_nspawn_opts opts = .error e)
    ∧ (opts.snapshot = true ∨
        truthyOptStr opts.debug_only_opts.snapshot_into = false →
        new_nspawn_opts opts ≠ .error .snapshotIntoWithoutSnapshot) := by
  unfold new_nspawn_opts
  constructor
  · intro hsi hs
    by_cases hq : opts.quiet && opts.debug_only_opts.debug <;>
      simp [hq, hsi, hs]
  · intro h
    rcases h with hs | hsi
    · by_cases hq : opts.quiet && opts.debug_only_opts.debug <;>
        simp [hq, hs]
    · by_cases hq : opts.quiet && opts.debug_only_opts.debug <;>
        simp [hq, hsi]

/-- C6 witness: a persisted-snapshot destination with snapshot mode off is
rejected; the same destination with snapshot mode on passes the check. -/
theorem new_nspawn_opts_snapshot_into_witness :
    (∃ e, new_nspawn_opts exOptsSnapIntoNoSnap = .error e)
    ∧ new_nspawn_opts exOptsSnapIntoSnap
        ≠ .error .snapshotIntoWithoutSnapshot :=
  ⟨(new_nspawn_opts_snapshot_into _).1 (by simp [exOptsSnapIntoNoSnap, exOpts, truthyOptStr]) rfl,
   (new_nspawn_opts_snapshot_into _).2 (Or.inl rfl)⟩

/-- C9: `_new_nspawn_cli_args` with a non-empty `serve_rpm_snapshots` list
fails unless the configured user is `root`; with an empty list any user is
accepted. -/
theorem cli_args_serve_rpm_needs_root (args : NspawnCLIArgs) :
    (args.serve_rpm_snapshots ≠ [] → args.opts.user.pw_name ≠ "root" →
      new_nspawn_cli_args args = .error .serveRpmSnapshotsNeedsRoot)
    ∧ (args.serve_rpm_snapshots = [] → new_nspawn_cli_args args = .ok args)
    ∧ (args.opts.user.pw_name = "root" → new_nspawn_cli_args args = .ok args) := by
  unfold new_nspawn_cli_args
  refine ⟨fun hne hroot => ?_, fun hemp => ?_, fun hroot => ?_⟩
  · simp [List.isEmpty_iff, hne, hroot]
  · simp [hemp]
  · simp [hroot]

/-- C9 witness: serving a snapshot as `nobody` is rejected; an empty
snapshot list as `nobody` is accepted; serving as `root` is accepted. -/
theorem cli_args_serve_rpm_needs_root_witness :
    new_nspawn_cli_args exCliServeAsNobody = .error .serveRpmSnapshotsNeedsRoot
    ∧ new_nspawn_cli_args exCliNoServe = .ok exCliNoServe :=
  ⟨(cli_args_serve_rpm_needs_root _).1
      (by simp [exCliServeAsNobody])
      (by simp [exCliServeAsNobody, exOpts, nobodyUser]),
   (cli_args_serve_rpm_needs_root _).2.1 rfl⟩

/-- C8: `nspawn_sanitize_env` keeps exactly the variables whose names do
not start with `SYSTEMD_NSPAWN_`, each with its value unchanged; on the
ambient environment `SYSTEMD_NSPAWN_FOO=bar, HOME=/x` it keeps `HOME=/x`
and drops `SYSTEMD_NSPAWN_FOO`. -/
theorem sanitize_env_drops_reserved_prefix :
    (∀ (env : List (String × String)) (k v : String),
      (k, v) ∈ nspawn_sanitize_env env ↔
        ((k, v) ∈ env ∧ pyStartsWith k "SYSTEMD_NSPAWN_" = false))
    ∧ nspawn_sanitize_env [("SYSTEMD_NSPAWN_FOO", "bar"), ("HOME", "/x")]
        = [("HOME", "/x")] := by
  constructor
  · intro env k v
    simp [nspawn_sanitize_env, List.mem_filter]
  · decide

/-- The `insert(0, ...)` loop over the ambient environment equals the
reversed list of `K=V` renderings of the `THRIFT_TLS_`-prefixed entries. -/
theorem tls_foldl_eq (ambient : List (String × String)) (acc : List String) :
    ambient.foldl
      (fun acc kv =>
        if pyStartsWith kv.1 "THRIFT_TLS_" then (kv.1 ++ "=" ++ kv.2) :: acc
        else acc) acc
    = forwardedTlsEnv ambient ++ acc := by
  induction ambient generalizing acc with
  | nil => simp [forwardedTlsEnv]
  | cons kv rest ih =>
    simp only [List.foldl_cons]
    by_cases h : pyStartsWith kv.1 "THRIFT_TLS_"
    · rw [if_pos h, ih]
      simp [forwardedTlsEnv, List.filter_cons, h]
    · rw [if_neg h, ih]
      simp [forwardedTlsEnv, List.filter_cons, h]

/-- C7: with TLS forwarding enabled, the target-command environment is
exactly the forwarded `THRIFT_TLS_`-prefixed ambient variables followed by
the explicit `setenv` entries — every forwarded entry precedes every
explicit entry, so under last-entry-wins semantics an explicit setting
overrides a forwarded one; each forwarded entry does come from a
`THRIFT_TLS_`-prefixed ambient variable, and with forwarding disabled
nothing is forwarded. -/
theorem cmd_env_forwarded_before_setenv (ambient : List (String × String))
    (setenv : List String) :
    buildCmdEnv true ambient setenv = forwardedTlsEnv ambient ++ setenv
    ∧ (∀ x ∈ forwardedTlsEnv ambient, ∃ kv, kv ∈ ambient ∧
        pyStartsWith kv.1 "THRIFT_TLS_" = true ∧ x = kv.1 ++ "=" ++ kv.2)
    ∧ buildCmdEnv false ambient setenv = setenv := by
  refine ⟨?_, ?_, rfl⟩
  · simp [buildCmdEnv, tls_foldl_eq]
  · intro x hx
    simp only [forwardedTlsEnv, List.mem_reverse, List.mem_map,
      List.mem_filter] at hx
    obtain ⟨kv, ⟨hmem, hpre⟩, hx⟩ := hx
    exact ⟨kv, hmem, hpre, hx.symm⟩

/-- C7 witness: on a concrete ambient environment and an explicit override
of the same key, the assembled environment is the forwarded entries
followed by the explicit entry. -/
theorem cmd_env_forwarded_before_setenv_witness :
    buildCmdEnv true [("THRIFT_TLS_A", "1"), ("OTHER", "2")]
        ["THRIFT_TLS_A=override"]
      = forwardedTlsEnv [("THRIFT_TLS_A", "1"), ("OTHER", "2")]
        ++ ["THRIFT_TLS_A=override"] :=
  (cmd_env_forwarded_before_setenv _ _).1

/-- A successful `parseRepoServerPorts` result is duplicate-free: the port
tokens are collected into a set. -/
theorem parseRepoServerPorts_nodup (contents : String) (ports : List Int)
    (h : parseRepoServerPorts contents = some ports) : ports.Nodup := by
  unfold parseRepoServerPorts at h
  cases hm : ((pySplitWhitespace contents).filter
      (fun v => v ≠ "")).mapM parsePortToken with
  | none => rw [hm] at h; simp at h
  | some raw =>
    rw [hm] at h
    simp only [Option.map_some'] at h
    obtain rfl : raw.dedup = ports := by injection h
    exact List.nodup_dedup raw

/-- C10: whatever the `repo_server_ports` file contains, the launcher
collapses duplicate port tokens into a set of distinct ports; the number
of sockets requested from the handoff protocol and the number of server
bindings both equal the number of distinct ports, each binding pairs one
distinct handed-off socket with one distinct port, and every socket is
bound on the loopback address. -/
theorem repo_servers_one_per_distinct_port (contents : String) (n : Nat)
    (bindings : List ServerBinding)
    (h : launch_repo_servers_plan contents = some (n, bindings)) :
    ∃ ports : List Int,
      parseRepoServerPorts contents = some ports ∧
      ports.Nodup ∧
      n = ports.length ∧
      bindings.length = n ∧
      bindings.map ServerBinding.port = ports ∧
      bindings.map ServerBinding.sockIndex = List.range n ∧
      ∀ b ∈ bindings, b.host = "127.0.0.1" := by
  unfold launch_repo_servers_plan at h
  cases hp : parseRepoServerPorts contents with
  | none => rw [hp] at h; simp at h
  | some ports =>
    rw [hp] at h
    simp only [Option.map_some', Option.some_inj, Prod.mk.injEq] at h
    obtain ⟨hn, hb⟩ := h
    subst hn
    subst hb
    refine ⟨ports, rfl, parseRepoServerPorts_nodup contents ports hp,
      rfl, ?_, ?_, ?_, ?_⟩
    · simp [List.length_zip]
    · simp only [List.map_map]
      have hc : (ServerBinding.port ∘ fun ip : Nat × Int =>
          ServerBinding.mk ip.1 "127.0.0.1" ip.2) = Prod.snd := by
        funext ip; rfl
      rw [hc]
      exact List.map_snd_zip _ _ (by simp)
    · simp only [List.map_map]
      have hc : (ServerBinding.sockIndex ∘ fun ip : Nat × Int =>
          ServerBinding.mk ip.1 "127.0.0.1" ip.2) = Prod.fst := by
        funext ip; rfl
      rw [hc]
      exact List.map_fst_zip _ _ (by simp)
    · intro b hmem
      simp only [List.mem_map] at hmem
      obtain ⟨ip, _, rfl⟩ := hmem
      rfl

/-- C10 witness: the file contents `"80 8080 80"` yield two distinct
ports, two requested sockets and two loopback bindings. -/
theorem repo_servers_one_per_distinct_port_witness :
    ∃ ports : List Int,
      parseRepoServerPorts "80 8080 80" = some ports ∧
      ports.Nodup ∧
      2 = ports.length ∧
      ((launch_repo_servers_plan "80 8080 80").map Prod.fst = some 2) := by
  obtain ⟨ports, h1, h2, h3, _⟩ :=
    repo_servers_one_per_distinct_port "80 8080 80" 2
      [⟨0, "127.0.0.1", 8080⟩, ⟨1, "127.0.0.1", 80⟩] (by decide)
  exact ⟨ports, h1, h2, h3, by decide⟩

/-- C2 counterexample: with the very first observation showing the server
process already exited (status 1) and the socket not listening, the
readiness loop resolves as `procExited`, yet `_launch_repo_server`
proceeds to yield to its caller — there is no code path that surfaces a
startup failure. -/
theorem launch_proceeds_after_early_exit :
    waitForServer [⟨some 1, false⟩] = some (.procExited 0 1)
    ∧ launch_repo_server_setup [⟨some 1, false⟩]
        = some (.proceeded (.procExited 0 1))
    ∧ ∀ r, launch_repo_server_setup [⟨some 1, false⟩]
        ≠ some (.startupError r) := by
  refine ⟨rfl, rfl, fun r h => ?_⟩
  simp [launch_repo_server_setup, waitForServer] at h

/-- C2 (amended): if every observation before the exit shows the server
still running and its socket not yet listening, and the server is then
observed to have exited, the readiness wait resolves exactly at that
observation (after `pre.length` poll-interval sleeps, so within one poll
interval of the exit becoming observable); but `_launch_repo_server` then
proceeds to yield to its caller instead of surfacing a fatal startup
failure. -/
theorem early_exit_resolves_promptly_but_proceeds
    (pre : List ReadinessObs) (c : Int) (acc : Bool)
    (rest : List ReadinessObs)
    (hpre : ∀ o ∈ pre, o.poll = none ∧ o.acceptconn = false) :
    waitForServer (pre ++ ⟨some c, acc⟩ :: rest)
      = some (.procExited pre.length c)
    ∧ launch_repo_server_setup (pre ++ ⟨some c, acc⟩ :: rest)
      = some (.proceeded (.procExited pre.length c)) := by
  have hw : waitForServer (pre ++ ⟨some c, acc⟩ :: rest)
      = some (.procExited pre.length c) := by
    induction pre with
    | nil => rfl
    | cons o pre ih =>
      obtain ⟨hp, ha⟩ := hpre o (List.mem_cons_self o pre)
      have hrec := ih (fun o ho => hpre o (List.mem_cons_of_mem _ ho))
      simp [waitForServer, hp, ha, hrec, WaitResult.bump]
  exact ⟨hw, by simp [launch_repo_server_setup, hw]⟩

/-- C2 witness: one still-running observation followed by an exit with
status 7 resolves after a single sleep, and the launch proceeds. -/
theorem early_exit_resolves_promptly_but_proceeds_witness :
    waitForServer [⟨none, false⟩, ⟨some 7, false⟩]
      = some (.procExited 1 7)
    ∧ launch_repo_server_setup [⟨none, false⟩, ⟨some 7, false⟩]
      = some (.proceeded (.procExited 1 7)) :=
  early_exit_resolves_promptly_but_proceeds [⟨none, false⟩] 7 false []
    (by decide)

/-- C3 counterexample: the same configuration (`exOpts`) with the same
pinned machine identifier, run against two hosts that differ only in
filesystem state (`/dev/fuse` present vs. absent), produces different
argument vectors — the builder's output does not depend on the
configuration and the identifier alone. -/
theorem builder_depends_on_host_state :
    build_invocation exOpts "0123456789abcdef" exHostFuse
      ≠ build_invocation exOpts "0123456789abcdef" exHostNoFuse := by
  decide

/-- C3 (amended): the builder is deterministic given the configuration,
the pinned machine identifier and the host-side facts it reads — two runs
whose hosts agree on the filesystem facts (`/dev/fuse` presence, resolved
repo root, layer repo metadata, os-release marker, snapshot subvolume
path) produce identical argument vectors and target-command environments
whenever TLS forwarding is disabled (the ambient environments may then
differ arbitrarily) or the ambient environments agree. -/
theorem builder_deterministic_given_host_facts (opts : NspawnOpts)
    (mid : String) (h1 h2 : HostState)
    (hfuse : h1.devFuseExists = h2.devFuseExists)
    (hroot : h1.repoRootRealpath = h2.repoRootRealpath)
    (hmeta : h1.artifactsMayRequireRepo = h2.artifactsMayRequireRepo)
    (hos : h1.osReleaseExists = h2.osReleaseExists)
    (hpath : h1.nspawnSubvolPath = h2.nspawnSubvolPath)
    (henv : opts.debug_only_opts.forward_tls_env = false ∨
      h1.ambientEnv = h2.ambientEnv) :
    build_invocation opts mid h1 = build_invocation opts mid h2 := by
  obtain ⟨e1, fu1, rr1, am1, os1, sp1⟩ := h1
  obtain ⟨e2, fu2, rr2, am2, os2, sp2⟩ := h2
  dsimp only at hfuse hroot hmeta hos hpath henv
  subst hfuse
  subst hroot
  subst hmeta
  subst hos
  subst hpath
  rcases henv with hf | he
  · simp [build_invocation, extra_nspawn_args_and_env, nspawn_cmd,
      buildCmdEnv, hf]
  · subst he
    rfl

/-- C3 witness: with TLS forwarding at its disabled default, two hosts
agreeing on all filesystem facts but with different ambient environments
yield the same invocation. -/
theorem builder_deterministic_given_host_facts_witness :
    build_invocation exOpts "0123456789abcdef"
        { exHostFuse with ambientEnv := [("SOME_VAR", "a")] }
      = build_invocation exOpts "0123456789abcdef"
        { exHostFuse with ambientEnv := [("OTHER_VAR", "b")] } :=
  builder_deterministic_given_host_facts exOpts "0123456789abcdef" _ _
    rfl rfl rfl rfl rfl (Or.inl rfl)

end FsImage
